import Mathlib

/-!
Shallow embedding of the Tarrification-Service billing core
(`app/models/database.py`, `app/repositories/*.py`, `app/services/*.py`).

The relational store is modelled as in-memory lists of rows; every DAO
method that commits (`BaseDAO.create`, `deactivate_user_plans`) returns
the updated store, mirroring the per-method `session.commit()` in the
source.  Timestamps are seconds (`Nat`); `datetime.utcnow()` becomes an
explicit `now` argument.  Monetary unit amounts (`Float` columns holding
exact unit counts per the data model) are modelled as exact integers
`Int`.  Row uuids (`generate_uuid`) are modelled as a fresh counter
`nextId` drawn at insert time, for the two tables whose row ids the
service returns (journal entries and user plans).
A raised exception of a service method is an `Except.error`; since each
DAO method commits on its own, mutators return the store alongside the
`Except`, so that state committed before the exception is preserved.

The repository is mid-rename on the balance store: the model column of
`user_balances` is `sub` (`database.py` line 15), but `BalanceDAO`
still reads `UserBalance.user_id` (`balance_dao.py` lines 16, 26, 37 —
`AttributeError` when the query or update is built) and constructs
`UserBalance(user_id=...)` (`TypeError`), while the services call
`balance_dao.get_by_sub` (`balance_service.py` lines 28, 68 and
`user_init_service.py` lines 29, 80), a method `BalanceDAO` never
defines (`AttributeError`).  These unconditional exceptions are
embedded as the error `attributeError`: every balance read or write of
the DAO raises before touching a row, and the code below each such
raise is dead.  The stale tests (`tests/test_models.py`,
`tests/test_dao.py`) still build rows with `user_id=...` and fail the
same way.  The only balance read in the repository that names the
column correctly is the inline query of
`PlanDAO.get_user_subscription_details` (`plan_dao.py` line 111), which
filters on `UserBalance.sub` and works.
-/

/-- `UserBalance` row (`app/models/database.py`): unique user key `sub`
and current balance.  (The DAO layer refers to this unique key column
both as `sub` and, in `BalanceDAO`, by its pre-rename name `user_id`;
both denote this single unique column.) -/
structure UserBalance where
  sub : String
  balance_units : Int
deriving DecidableEq

/-- `BalanceTransaction` journal row (`app/models/database.py`), with
unique constraint `uq_transaction_idempotency` on (sub, ref, direction). -/
structure BalanceTransaction where
  id : Nat
  sub : String
  direction : String
  units : Int
  ref : String
  reason : String
  source_service : Option String
deriving DecidableEq

/-- `TariffPlan` catalog row (`app/models/database.py`); `plan_code` is unique. -/
structure TariffPlan where
  plan_code : String
  name : String
  monthly_units : Int
  price_rub : Int
  is_active : Bool
deriving DecidableEq

/-- `UserPlan` subscription row (`app/models/database.py`), with unique
constraint `uq_user_plan` on (sub, plan_code). -/
structure UserPlan where
  id : Nat
  sub : String
  plan_code : String
  started_at : Nat
  expires_at : Nat
  auto_renew : Bool
  is_active : Bool
deriving DecidableEq

/-- Modelled from the spec: `TariffProperty` (spec section 3) — plan
code plus a named capability string.  The class is imported and queried
by `plan_dao.py` and `tariff_dao.py` but absent from the staged
`app/models/database.py`; the fields follow the spec's words and the
columns those queries reference (`plan_code`, `plan_property`). -/
structure TariffProperty where
  plan_code : String
  plan_property : String
deriving DecidableEq

/-- The relational store: one list of rows per table, plus the fresh-id
counter standing in for uuid generation at insert. -/
structure DB where
  balances : List UserBalance
  transactions : List BalanceTransaction
  user_plans : List UserPlan
  tariff_plans : List TariffPlan
  tariff_properties : List TariffProperty
  nextId : Nat
deriving DecidableEq

/-- Typed errors raised by the embedded services:
`invalidArgument` (pydantic `gt=0` / missing required field),
`insufficientFunds` (HTTP 403 `quota_exceeded`, carrying required and
available amounts), `planNotFound` (`ValueError` in the plan flow),
`uniqueViolation` (database `IntegrityError` on a unique constraint),
`multipleResults` (`scalar_one_or_none` on several rows),
`attributeError` (Python `AttributeError`/`TypeError` from the
mid-rename balance DAO: nonexistent `UserBalance.user_id` column,
undefined `get_by_sub` method, invalid `user_id=` keyword),
`internalError` (any other exception, e.g. the HTTP 500 wrapper of
`UserInitService`). -/
inductive ServiceError where
  | invalidArgument
  | insufficientFunds (required available : Int)
  | planNotFound (code : String)
  | uniqueViolation
  | multipleResults
  | attributeError
  | internalError
deriving DecidableEq

/-- `CheckBalanceRequest` (`app/models/schemas.py`); pydantic enforces
`units > 0` at construction, carried as a hypothesis in the theorems. -/
structure CheckBalanceRequest where
  sub : String
  units : Int
deriving DecidableEq

/-- `DebitRequest` (`app/models/schemas.py`); pydantic enforces `units > 0`. -/
structure DebitRequest where
  sub : String
  units : Int
  ref : String
  reason : String
deriving DecidableEq

/-- `CreditRequest` (`app/models/schemas.py`); pydantic enforces
`units > 0` and that `ref` is a present string. -/
structure CreditRequest where
  sub : String
  units : Int
  ref : String
  source_service : Option String
  reason : String
deriving DecidableEq

/-- `ApplyPlanRequest` (`app/models/schemas.py`): `ref` is optional
(defaults to `None`). -/
structure ApplyPlanRequest where
  sub : String
  plan_code : String
  ref : Option String
  auto_renew : Bool
deriving DecidableEq

/-- Pydantic validation performed when `PlanService.apply_plan`
constructs a `CreditRequest`: `units` must be strictly positive
(`Field(..., gt=0)`) and `ref` must be an actual string (the field is
required and not optional); a violation raises a validation error. -/
def mkCreditRequest (sub : String) (units : Int) (ref : Option String)
    (source_service : Option String) (reason : String) :
    Except ServiceError CreditRequest :=
  if units ≤ 0 then .error .invalidArgument
  else
    match ref with
    | none => .error .invalidArgument
    | some r =>
        .ok { sub := sub, units := units, ref := r,
              source_service := source_service, reason := reason }

/-- `TransactionDAO.get_by_ref_and_direction`: the idempotency lookup on
(sub, ref, direction).  The unique constraint on that triple makes
`scalar_one_or_none` coincide with first-match lookup. -/
def TransactionDAO.get_by_ref_and_direction (db : DB)
    (sub ref direction : String) : Option BalanceTransaction :=
  db.transactions.find? fun t =>
    t.sub == sub && t.ref == ref && t.direction == direction

/-- `TransactionDAO.create_transaction` through `BaseDAO.create`: the
store rejects a row duplicating `uq_transaction_idempotency`, otherwise
the row is inserted (and committed) with a fresh id. -/
def TransactionDAO.create_transaction (db : DB) (sub direction : String)
    (units : Int) (ref reason : String) (source_service : Option String) :
    (Except ServiceError BalanceTransaction) × DB :=
  if (TransactionDAO.get_by_ref_and_direction db sub ref direction).isSome then
    (.error .uniqueViolation, db)
  else
    let t : BalanceTransaction :=
      { id := db.nextId, sub := sub, direction := direction, units := units,
        ref := ref, reason := reason, source_service := source_service }
    (.ok t, { db with transactions := db.transactions ++ [t],
                      nextId := db.nextId + 1 })

/-- `BalanceDAO.get_by_user_id` (`balance_dao.py` lines 13-18): builds
`select(UserBalance).where(UserBalance.user_id == user_id)`; the model
defines the column as `sub`, not `user_id`, so the attribute access
raises `AttributeError` before any row is read — on every call. -/
def BalanceDAO.get_by_user_id (db : DB) (user_id : String) :
    Except ServiceError (Option UserBalance) :=
  let _ := db
  let _ := user_id
  .error .attributeError

/-- The services call `self.balance_dao.get_by_sub(...)`
(`balance_service.py` lines 28 and 68, `user_init_service.py` lines 29
and 80); `BalanceDAO` defines no method of that name, so the attribute
access raises `AttributeError` on every call. -/
def BalanceDAO.get_by_sub (db : DB) (sub : String) :
    Except ServiceError (Option UserBalance) :=
  let _ := db
  let _ := sub
  .error .attributeError

/-- The working select on the unique `sub` column of `user_balances`,
as issued inline by `PlanDAO.get_user_subscription_details`
(`plan_dao.py` line 111:
`select(UserBalance.balance_units).where(UserBalance.sub == sub)`) —
the one balance read in the repository that names the column correctly. -/
def balanceRowBySub (db : DB) (sub : String) : Option UserBalance :=
  db.balances.find? fun b => b.sub == sub

/-- `BaseDAO.create` for `UserBalance`: the store rejects a duplicate of
the unique `sub` column, otherwise inserts (and commits) the row. -/
def BalanceDAO.create (db : DB) (b : UserBalance) :
    (Except ServiceError UserBalance) × DB :=
  if db.balances.any fun x => x.sub == b.sub then
    (.error .uniqueViolation, db)
  else
    (.ok b, { db with balances := db.balances ++ [b] })

/-- `BalanceDAO.get_or_create_balance` (`balance_dao.py` lines 20-31):
calls `get_by_user_id`, which raises; were the missing-row branch ever
reached, `UserBalance(user_id=user_id, ...)` would raise `TypeError`
(invalid keyword against the `sub`-column model).  Every call raises
and leaves the store untouched. -/
def BalanceDAO.get_or_create_balance (db : DB) (user_id : String) :
    (Except ServiceError UserBalance) × DB :=
  match BalanceDAO.get_by_user_id db user_id with
  | .error e => (.error e, db)
  | .ok (some b) => (.ok b, db)
  | .ok none => (.error .attributeError, db)

/-- `BalanceDAO.update_balance` (`balance_dao.py` lines 33-42): the
UPDATE's where-clause reads the nonexistent `UserBalance.user_id`
column, so building the statement raises `AttributeError` before the
execute; nothing is written. -/
def BalanceDAO.update_balance (db : DB) (user_id : String)
    (new_balance : Int) : (Except ServiceError Unit) × DB :=
  let _ := user_id
  let _ := new_balance
  (.error .attributeError, db)

/-- `BalanceService.check_balance` (`balance_service.py` lines 15-18):
get-or-create the balance row, compare with the requested units.  The
DAO call raises on every invocation, so the comparison is dead code and
every CheckBalance propagates the `AttributeError`. -/
def BalanceService.check_balance (db : DB) (request : CheckBalanceRequest) :
    (Except ServiceError (Bool × Int)) × DB :=
  match BalanceDAO.get_or_create_balance db request.sub with
  | (.error e, db1) => (.error e, db1)
  | (.ok balance, db1) =>
      (.ok (decide (balance.balance_units ≥ request.units),
            balance.balance_units), db1)

/-- `BalanceService.debit_balance` (`balance_service.py` lines 20-58):
the replay lookup on the journal works (`BalanceTransaction` uses
`sub`), but the replay branch then calls the undefined
`balance_dao.get_by_sub` and the fresh branch calls the broken
`get_or_create_balance`, so both branches raise before the
insufficient-funds check; the funds comparison, the balance decrement
and the journal insert below them are dead code. -/
def BalanceService.debit_balance (db : DB) (request : DebitRequest) :
    (Except ServiceError (Int × Nat)) × DB :=
  match TransactionDAO.get_by_ref_and_direction db request.sub request.ref "debit" with
  | some existing_tx =>
      match BalanceDAO.get_by_sub db request.sub with
      | .error e => (.error e, db)
      | .ok (some balance) => (.ok (balance.balance_units, existing_tx.id), db)
      | .ok none => (.error .attributeError, db)
  | none =>
      match BalanceDAO.get_or_create_balance db request.sub with
      | (.error e, db1) => (.error e, db1)
      | (.ok balance, db1) =>
          if balance.balance_units < request.units then
            (.error (.insufficientFunds request.units balance.balance_units), db1)
          else
            let new_balance := balance.balance_units - request.units
            match BalanceDAO.update_balance db1 request.sub new_balance with
            | (.error e, db2) => (.error e, db2)
            | (.ok _, db2) =>
                let ct := TransactionDAO.create_transaction db2 request.sub "debit"
                  request.units request.ref request.reason none
                match ct.1 with
                | .ok transaction => (.ok (new_balance, transaction.id), ct.2)
                | .error e => (.error e, ct.2)

/-- `BalanceService.credit_balance` (`balance_service.py` lines 60-89):
same shape as the debit: the journal replay lookup works, then the
replay branch's undefined `get_by_sub` and the fresh branch's broken
`get_or_create_balance` raise; the increment and insert are dead code. -/
def BalanceService.credit_balance (db : DB) (request : CreditRequest) :
    (Except ServiceError (Int × Nat)) × DB :=
  match TransactionDAO.get_by_ref_and_direction db request.sub request.ref "credit" with
  | some existing_tx =>
      match BalanceDAO.get_by_sub db request.sub with
      | .error e => (.error e, db)
      | .ok (some balance) => (.ok (balance.balance_units, existing_tx.id), db)
      | .ok none => (.error .attributeError, db)
  | none =>
      match BalanceDAO.get_or_create_balance db request.sub with
      | (.error e, db1) => (.error e, db1)
      | (.ok balance, db1) =>
          let new_balance := balance.balance_units + request.units
          match BalanceDAO.update_balance db1 request.sub new_balance with
          | (.error e, db2) => (.error e, db2)
          | (.ok _, db2) =>
              let ct := TransactionDAO.create_transaction db2 request.sub "credit"
                request.units request.ref request.reason request.source_service
              match ct.1 with
              | .ok transaction => (.ok (new_balance, transaction.id), ct.2)
              | .error e => (.error e, ct.2)

/-- `BalanceService.get_balance` (`balance_service.py` lines 91-94):
get-or-create and return the amount; raises on every call through the
broken DAO. -/
def BalanceService.get_balance (db : DB) (sub : String) :
    (Except ServiceError Int) × DB :=
  match BalanceDAO.get_or_create_balance db sub with
  | (.error e, db1) => (.error e, db1)
  | (.ok balance, db1) => (.ok balance.balance_units, db1)

/-- Number of days of the fixed monthly cycle (`timedelta(days=30)`),
in seconds. -/
def thirtyDays : Nat := 30 * 86400

/-- One year (`timedelta(days=365)`) in seconds. -/
def oneYear : Nat := 365 * 86400

/-- `PlanDAO.get_tariff_plan`: active catalog row by code; `plan_code`
is unique, so `scalar_one_or_none` coincides with first-match lookup. -/
def PlanDAO.get_tariff_plan (db : DB) (plan_code : String) :
    Option TariffPlan :=
  db.tariff_plans.find? fun t => t.plan_code == plan_code && t.is_active

/-- `PlanDAO.get_active_plan_by_user`: active, non-expired row for the
user; `scalar_one_or_none` raises when several rows match. -/
def PlanDAO.get_active_plan_by_user (db : DB) (sub : String) (now : Nat) :
    Except ServiceError (Option UserPlan) :=
  let rows := db.user_plans.filter fun p =>
    p.sub == sub && p.is_active && decide (now < p.expires_at)
  if rows.length ≤ 1 then .ok rows.head? else .error .multipleResults

/-- `BaseDAO.create` for `UserPlan`: the store rejects a duplicate of
`uq_user_plan` (sub, plan_code), otherwise inserts (and commits) the row
with a fresh id. -/
def PlanDAO.create (db : DB) (p : UserPlan) :
    (Except ServiceError UserPlan) × DB :=
  if db.user_plans.any fun q => q.sub == p.sub && q.plan_code == p.plan_code then
    (.error .uniqueViolation, db)
  else
    let p1 := { p with id := db.nextId }
    (.ok p1, { db with user_plans := db.user_plans ++ [p1],
                       nextId := db.nextId + 1 })

/-- `PlanDAO.deactivate_user_plans`: `UPDATE user_plans SET is_active =
false WHERE sub = sub AND is_active`, committed immediately. -/
def PlanDAO.deactivate_user_plans (db : DB) (sub : String) : DB :=
  { db with user_plans := db.user_plans.map fun p =>
      if p.sub == sub && p.is_active then { p with is_active := false } else p }

/-- `PlanDAO.apply_plan`: deactivate the user's active plans (committed
first), resolve the tariff, then insert the new subscription row with
start = now and expiry = now + 30 days.  The `ref` parameter is accepted
and unused, as in the source. -/
def PlanDAO.apply_plan (db : DB) (sub plan_code : String)
    (ref : Option String) (auto_renew : Bool) (now : Nat) :
    (Except ServiceError UserPlan) × DB :=
  let _ := ref
  let db1 := PlanDAO.deactivate_user_plans db sub
  match PlanDAO.get_tariff_plan db1 plan_code with
  | none => (.error (.planNotFound plan_code), db1)
  | some _ =>
      let expires_at := now + thirtyDays
      PlanDAO.create db1
        { id := 0, sub := sub, plan_code := plan_code, started_at := now,
          expires_at := expires_at, auto_renew := auto_renew, is_active := true }

/-- `PlanService.apply_plan` (`app/services/plan_service.py`): resolve
the tariff (-> `planNotFound`), apply the subscription change, then
grant the monthly units through `credit_balance` with reason
`plan_<code>` and source tag `plan_activation`. -/
def PlanService.apply_plan (db : DB) (request : ApplyPlanRequest)
    (now : Nat) : (Except ServiceError (Nat × Int)) × DB :=
  match PlanDAO.get_tariff_plan db request.plan_code with
  | none => (.error (.planNotFound request.plan_code), db)
  | some tariff_plan =>
      let ap := PlanDAO.apply_plan db request.sub request.plan_code request.ref
        request.auto_renew now
      match ap.1 with
      | .error e => (.error e, ap.2)
      | .ok user_plan =>
          match mkCreditRequest request.sub tariff_plan.monthly_units
              request.ref (some "plan_activation")
              ("plan_" ++ request.plan_code) with
          | .error e => (.error e, ap.2)
          | .ok credit_request =>
              let cb := BalanceService.credit_balance ap.2 credit_request
              match cb.1 with
              | .ok result => (.ok (user_plan.id, result.1), cb.2)
              | .error e => (.error e, cb.2)

/-- Result rows of `PlanService.get_user_plan_info`. -/
structure PlanInfo where
  plan_code : String
  expires_at : Nat
  status : String
deriving DecidableEq

/-- `PlanService.get_user_plan_info`: the active, non-expired row if
any; its status is rendered `"active"` when the row's `is_active` flag
is set, `"inactive"` otherwise. -/
def PlanService.get_user_plan_info (db : DB) (sub : String) (now : Nat) :
    Except ServiceError (Option PlanInfo) :=
  match PlanDAO.get_active_plan_by_user db sub now with
  | .error e => .error e
  | .ok none => .ok none
  | .ok (some user_plan) =>
      .ok (some { plan_code := user_plan.plan_code,
                  expires_at := user_plan.expires_at,
                  status := if user_plan.is_active then "active" else "inactive" })

/-- Status derivation of `PlanDAO.get_user_subscription_details`
(lines 121-130): expired when expiry ≤ now, else cancelled when
auto-renew is off, else active. -/
def subscriptionStatus (expires_at now : Nat) (auto_renew : Bool) : String :=
  if expires_at ≤ now then "expired"
  else if !auto_renew then "cancelled"
  else "active"

/-- The read model returned by `PlanDAO.get_user_subscription_details`
(string timestamp rendering elided; raw values kept). -/
structure SubscriptionDetails where
  id : Nat
  user_id : String
  plan_code : String
  started_at : Nat
  expires_at : Nat
  auto_renew : Bool
  status : String
  remaining_units : Int
  tariff_properties : List String
  plan_name : String
  plan_monthly_units : Int
  plan_price_rub : Int
  plan_is_active : Bool
deriving DecidableEq

/-- `PlanDAO.get_user_subscription_details`: inner join of the active,
non-expired user plan with its catalog row (first row via `fetchone`),
the live balance, the plan's property list, and the derived status.
The source calls `datetime.utcnow()` twice in quick succession; both
reads are modelled as the single instant `now`. -/
def PlanDAO.get_user_subscription_details (db : DB) (sub : String)
    (now : Nat) : Option SubscriptionDetails :=
  let joined := db.user_plans.filterMap fun p =>
    if p.sub == sub && p.is_active && decide (now < p.expires_at) then
      (db.tariff_plans.find? fun t => t.plan_code == p.plan_code).map
        fun t => (p, t)
    else none
  joined.head?.map fun pt =>
    let remaining_units :=
      ((balanceRowBySub db sub).map
        fun b => b.balance_units).getD 0
    let props := (db.tariff_properties.filter
      fun tp => tp.plan_code == pt.1.plan_code).map
        fun tp => tp.plan_property
    { id := pt.1.id, user_id := pt.1.sub, plan_code := pt.1.plan_code,
      started_at := pt.1.started_at, expires_at := pt.1.expires_at,
      auto_renew := pt.1.auto_renew,
      status := subscriptionStatus pt.1.expires_at now pt.1.auto_renew,
      remaining_units := remaining_units, tariff_properties := props,
      plan_name := pt.2.name, plan_monthly_units := pt.2.monthly_units,
      plan_price_rub := pt.2.price_rub, plan_is_active := pt.2.is_active }

/-- `UserInitService.init_user` (`app/services/user_init_service.py`
lines 16-66): the existence check calls the undefined
`balance_dao.get_by_sub`, so every call raises at once; the surrounding
`except Exception` converts the `AttributeError` into an HTTP 500
(`internalError`).  The creation steps below (which use the correct
`sub` keyword and the generic `BaseDAO.create`) are dead code. -/
def UserInitService.init_user (db : DB) (sub : String) (now : Nat) :
    (Except ServiceError (Bool × Int)) × DB :=
  match BalanceDAO.get_by_sub db sub with
  | .error _ => (.error .internalError, db)
  | .ok (some existing_balance) => (.ok (false, existing_balance.balance_units), db)
  | .ok none =>
      let initial_balance : Int := 0
      let bc := BalanceDAO.create db { sub := sub, balance_units := initial_balance }
      match bc.1 with
      | .error _ => (.error .internalError, bc.2)
      | .ok _ =>
          let expires_at := now + oneYear
          let pc := PlanDAO.create bc.2
            { id := 0, sub := sub, plan_code := "0000", started_at := now,
              expires_at := expires_at, auto_renew := true, is_active := true }
          match pc.1 with
          | .error _ => (.error .internalError, pc.2)
          | .ok _ => (.ok (true, initial_balance), pc.2)

/-- The subscription rows of an identity currently flagged active. -/
def activePlans (db : DB) (sub : String) : List UserPlan :=
  db.user_plans.filter fun p => p.sub == sub && p.is_active

deriving instance DecidableEq for Except

/-- The `uq_user_plan` invariant as a store predicate: no two
subscription rows share (sub, plan_code). -/
def planUq (db : DB) : Prop :=
  db.user_plans.Pairwise fun p q => ¬(p.sub = q.sub ∧ p.plan_code = q.plan_code)

/-- One inbound ledger call of a run: a debit or a credit request. -/
inductive LedgerOp where
  | debit (request : DebitRequest)
  | credit (request : CreditRequest)
deriving DecidableEq

/-- The store after one ledger call (the call's returned value dropped). -/
def applyOp (db : DB) : LedgerOp → DB
  | .debit request => (BalanceService.debit_balance db request).2
  | .credit request => (BalanceService.credit_balance db request).2

/-- The store after a sequence of ledger calls. -/
def runOps (db : DB) : List LedgerOp → DB
  | [] => db
  | op :: rest => runOps (applyOp db op) rest

/-- Fixture: the empty store. -/
def exEmptyDB : DB :=
  { balances := [], transactions := [], user_plans := [], tariff_plans := [],
    tariff_properties := [], nextId := 0 }

/-- Fixture: the spec's scenario-2 credit request. -/
def exTopup : CreditRequest :=
  { sub := "u1", units := 100, ref := "p1", source_service := none, reason := "topup" }

/-- Fixture: the spec's scenario-3 debit request. -/
def exDebit : DebitRequest :=
  { sub := "u1", units := 30, ref := "m1", reason := "chat" }

/-- Fixture: the spec's scenario-3 oversized debit request. -/
def exBigDebit : DebitRequest :=
  { sub := "u1", units := 1000, ref := "m2", reason := "chat" }

/-- Fixture: a store already holding the balance row (u1, 100) and the
journal rows for (u1, m1, debit) and (u1, p1, credit) — the exact
situation in which a repeated Debit or Credit is a replay. -/
def exReplayDb : DB :=
  { balances := [{ sub := "u1", balance_units := 100 }]
    transactions :=
      [{ id := 0
         sub := "u1"
         direction := "debit"
         units := 30
         ref := "m1"
         reason := "chat"
         source_service := none },
       { id := 1
         sub := "u1"
         direction := "credit"
         units := 100
         ref := "p1"
         reason := "topup"
         source_service := none }]
    user_plans := []
    tariff_plans := []
    tariff_properties := []
    nextId := 2 }

/-- Fixture: a store holding the balance row (u1, 70) and an empty
journal — the spec's scenario-3 insufficient-funds situation. -/
def exLowDb : DB :=
  { balances := [{ sub := "u1", balance_units := 70 }]
    transactions := []
    user_plans := []
    tariff_plans := []
    tariff_properties := []
    nextId := 0 }

/-- Fixture: a catalog with the active plan base750 granting 750 units. -/
def exPlanDB : DB :=
  { exEmptyDB with tariff_plans :=
      [{ plan_code := "base750", name := "Base 750", monthly_units := 750,
         price_rub := 990, is_active := true }] }

/-- Fixture: u1 already holds a base750 subscription row (active). -/
def exC5db : DB :=
  { exPlanDB with user_plans :=
      [{ id := 0, sub := "u1", plan_code := "base750", started_at := 0,
         expires_at := 900, auto_renew := false, is_active := true }] }

/-- Fixture: re-application of base750 to u1 under a fresh reference. -/
def exC5req : ApplyPlanRequest :=
  { sub := "u1", plan_code := "base750", ref := some "pay9", auto_renew := false }

/-- Fixture: u2 holds an active, non-expired base750 row with
auto-renew off. -/
def exC6db : DB :=
  { exPlanDB with user_plans :=
      [{ id := 0, sub := "u2", plan_code := "base750", started_at := 0,
         expires_at := 2000, auto_renew := false, is_active := true }] }

/-- Fixture: the details row the store exC6db yields for u2 at 1000. -/
def exC6SubDetails : SubscriptionDetails :=
  { id := 0
    user_id := "u2"
    plan_code := "base750"
    started_at := 0
    expires_at := 2000
    auto_renew := false
    status := "cancelled"
    remaining_units := 0
    tariff_properties := []
    plan_name := "Base 750"
    plan_monthly_units := 750
    plan_price_rub := 990
    plan_is_active := true }

/-- Fixture: a catalog with an active plan granting 0 monthly units. -/
def exC10db : DB :=
  { exEmptyDB with tariff_plans :=
      [{ plan_code := "free0", name := "Free", monthly_units := 0,
         price_rub := 0, is_active := true }] }

/-- Fixture: application of the zero-grant plan to u4. -/
def exC10req : ApplyPlanRequest :=
  { sub := "u4", plan_code := "free0", ref := some "pay3", auto_renew := true }

theorem mem_of_head?_eq_some {α : Type} {l : List α} {a : α}
    (h : l.head? = some a) : a ∈ l := by
  cases l with
  | nil => simp at h
  | cons x xs => simp at h; simp [h]

theorem debit_balance_attribute_error (db : DB) (r : DebitRequest) :
    BalanceService.debit_balance db r = (.error .attributeError, db) := by
  unfold BalanceService.debit_balance
  rcases hfind : TransactionDAO.get_by_ref_and_direction db r.sub r.ref "debit" with
    _ | tx <;> rfl

theorem credit_balance_attribute_error (db : DB) (r : CreditRequest) :
    BalanceService.credit_balance db r = (.error .attributeError, db) := by
  unfold BalanceService.credit_balance
  rcases hfind : TransactionDAO.get_by_ref_and_direction db r.sub r.ref "credit" with
    _ | tx <;> rfl

theorem deactivate_frame (db : DB) (s : String) :
    (PlanDAO.deactivate_user_plans db s).balances = db.balances ∧
    (PlanDAO.deactivate_user_plans db s).transactions = db.transactions ∧
    (PlanDAO.deactivate_user_plans db s).tariff_plans = db.tariff_plans ∧
    (PlanDAO.deactivate_user_plans db s).tariff_properties = db.tariff_properties ∧
    (PlanDAO.deactivate_user_plans db s).nextId = db.nextId :=
  ⟨rfl, rfl, rfl, rfl, rfl⟩

theorem get_tariff_plan_congr {db db' : DB}
    (h : db'.tariff_plans = db.tariff_plans) (c : String) :
    PlanDAO.get_tariff_plan db' c = PlanDAO.get_tariff_plan db c := by
  unfold PlanDAO.get_tariff_plan
  rw [h]

theorem activePlans_deactivate (db : DB) (s : String) :
    activePlans (PlanDAO.deactivate_user_plans db s) s = [] := by
  unfold activePlans PlanDAO.deactivate_user_plans
  rw [List.filter_eq_nil_iff]
  intro a ha
  simp only [List.mem_map] at ha
  obtain ⟨p, hp, rfl⟩ := ha
  by_cases h : (p.sub == s && p.is_active) = true
  · simp [h]
  · simp only [if_neg h]
    simpa using h

theorem deactivate_sub_inactive (db : DB) (s : String) :
    ∀ p ∈ (PlanDAO.deactivate_user_plans db s).user_plans,
      p.sub = s → p.is_active = false := by
  intro p hp hps
  unfold PlanDAO.deactivate_user_plans at hp
  simp only [List.mem_map] at hp
  obtain ⟨q, hq, rfl⟩ := hp
  by_cases h : (q.sub == s && q.is_active) = true
  · simp [h]
  · simp only [if_neg h] at hps ⊢
    simp only [Bool.and_eq_true, beq_iff_eq] at h
    rcases Decidable.not_and_iff_or_not.mp h with h1 | h2
    · exact absurd hps h1
    · simpa using h2

theorem plan_create_dup (db : DB) (p : UserPlan)
    (hd : (db.user_plans.any fun q =>
      q.sub == p.sub && q.plan_code == p.plan_code) = true) :
    PlanDAO.create db p = (.error .uniqueViolation, db) := by
  unfold PlanDAO.create
  rw [if_pos hd]

theorem plan_create_ok (db : DB) (p : UserPlan)
    (hd : (db.user_plans.any fun q =>
      q.sub == p.sub && q.plan_code == p.plan_code) = false) :
    PlanDAO.create db p =
      (.ok { p with id := db.nextId },
       { db with user_plans := db.user_plans ++ [{ p with id := db.nextId }]
                 nextId := db.nextId + 1 }) := by
  unfold PlanDAO.create
  rw [if_neg (by simp [hd])]

theorem planUq_create (db : DB) (p : UserPlan) (h : planUq db) :
    planUq (PlanDAO.create db p).2 := by
  rcases hd : (db.user_plans.any fun q =>
      q.sub == p.sub && q.plan_code == p.plan_code) with _ | _
  · rw [plan_create_ok db p hd]
    unfold planUq at h ⊢
    rw [List.pairwise_append]
    refine ⟨h, by simp, ?_⟩
    intro a ha b hb
    simp only [List.mem_singleton] at hb
    subst hb
    rintro ⟨h1, h2⟩
    have hall := List.any_eq_false.mp hd a ha
    simp only [Bool.and_eq_true, beq_iff_eq, not_and] at hall
    exact absurd (by simpa using h2) (hall (by simpa using h1))
  · rw [plan_create_dup db p hd]
    exact h

theorem planUq_deactivate (db : DB) (s : String) (h : planUq db) :
    planUq (PlanDAO.deactivate_user_plans db s) := by
  unfold planUq at h ⊢
  unfold PlanDAO.deactivate_user_plans
  refine List.Pairwise.map _ ?_ h
  intro a b hab hcon
  apply hab
  have hsub : ∀ x : UserPlan,
      (if x.sub == s && x.is_active then { x with is_active := false } else x).sub =
        x.sub := by
    intro x
    by_cases hx : (x.sub == s && x.is_active) = true <;> simp [hx]
  have hpc : ∀ x : UserPlan,
      (if x.sub == s && x.is_active then { x with is_active := false } else x).plan_code =
        x.plan_code := by
    intro x
    by_cases hx : (x.sub == s && x.is_active) = true <;> simp [hx]
  exact ⟨by rw [← hsub a, ← hsub b]; exact hcon.1,
         by rw [← hpc a, ← hpc b]; exact hcon.2⟩

theorem any_dup_deactivate (db : DB) (s sub pc : String) :
    ((PlanDAO.deactivate_user_plans db s).user_plans.any fun q =>
        q.sub == sub && q.plan_code == pc) =
      (db.user_plans.any fun q => q.sub == sub && q.plan_code == pc) := by
  unfold PlanDAO.deactivate_user_plans
  rw [List.any_map]
  congr 1
  funext q
  by_cases hx : (q.sub == s && q.is_active) = true
  · obtain ⟨h1, h2⟩ : q.sub = s ∧ q.is_active = true := by simpa using hx
    simp [h1, h2]
  · have hx' : ¬(q.sub = s ∧ q.is_active = true) := by simpa using hx
    simp [hx']

theorem dao_apply_plan_notfound (db : DB) (sub plan_code : String)
    (ref : Option String) (auto_renew : Bool) (now : Nat)
    (ht : PlanDAO.get_tariff_plan db plan_code = none) :
    PlanDAO.apply_plan db sub plan_code ref auto_renew now =
      (.error (.planNotFound plan_code), PlanDAO.deactivate_user_plans db sub) := by
  unfold PlanDAO.apply_plan
  dsimp only
  rw [get_tariff_plan_congr (deactivate_frame db sub).2.2.1 plan_code, ht]

theorem dao_apply_plan_dup (db : DB) (sub plan_code : String)
    (ref : Option String) (auto_renew : Bool) (now : Nat) (t : TariffPlan)
    (ht : PlanDAO.get_tariff_plan db plan_code = some t)
    (hd : (db.user_plans.any fun q =>
      q.sub == sub && q.plan_code == plan_code) = true) :
    PlanDAO.apply_plan db sub plan_code ref auto_renew now =
      (.error .uniqueViolation, PlanDAO.deactivate_user_plans db sub) := by
  unfold PlanDAO.apply_plan
  dsimp only
  rw [get_tariff_plan_congr (deactivate_frame db sub).2.2.1 plan_code, ht]
  rw [plan_create_dup _ _ (by rw [any_dup_deactivate]; exact hd)]

theorem dao_apply_plan_ok (db : DB) (sub plan_code : String)
    (ref : Option String) (auto_renew : Bool) (now : Nat) (t : TariffPlan)
    (ht : PlanDAO.get_tariff_plan db plan_code = some t)
    (hd : (db.user_plans.any fun q =>
      q.sub == sub && q.plan_code == plan_code) = false) :
    PlanDAO.apply_plan db sub plan_code ref auto_renew now =
      (.ok { id := db.nextId
             sub := sub
             plan_code := plan_code
             started_at := now
             expires_at := now + thirtyDays
             auto_renew := auto_renew
             is_active := true },
       { PlanDAO.deactivate_user_plans db sub with
           user_plans := (PlanDAO.deactivate_user_plans db sub).user_plans ++
             [{ id := db.nextId
                sub := sub
                plan_code := plan_code
                started_at := now
                expires_at := now + thirtyDays
                auto_renew := auto_renew
                is_active := true }]
           nextId := db.nextId + 1 }) := by
  unfold PlanDAO.apply_plan
  dsimp only
  rw [get_tariff_plan_congr (deactivate_frame db sub).2.2.1 plan_code, ht]
  rw [plan_create_ok _ _ (by rw [any_dup_deactivate]; exact hd)]
  rfl

/-- C1: the code violates the claim.  Every Debit and Credit call —
including an exact replay, issued against a store that already holds
the journal row for its (identity, reference, direction) key and the
identity's balance row — raises `AttributeError` (the replay branch
calls the undefined `balance_dao.get_by_sub`, the fresh branch the
broken `get_or_create_balance`) instead of returning the same balance
and entry id; no call returns at all. -/
theorem debit_credit_raise_attribute_error :
    (BalanceService.debit_balance exReplayDb exDebit).1 = .error .attributeError ∧
    (BalanceService.credit_balance exReplayDb exTopup).1 = .error .attributeError ∧
    (BalanceService.debit_balance exEmptyDB exDebit).1 = .error .attributeError ∧
    (BalanceService.credit_balance exEmptyDB exTopup).1 = .error .attributeError := by
  decide

/-- C2: the code violates the claim.  On a store where u1 holds 70
units, `Debit(u1, 1000, m2)` should fail with `insufficientFunds`
carrying required 1000 and available 70; the code instead raises
`AttributeError` inside `get_or_create_balance` before the funds
comparison, so the insufficient-funds error is unreachable (the store
is indeed left unchanged, but only because the call crashes first). -/
theorem debit_insufficient_unreachable :
    (BalanceService.debit_balance exLowDb exBigDebit).1 = .error .attributeError ∧
    (BalanceService.debit_balance exLowDb exBigDebit).1 ≠
      .error (.insufficientFunds 1000 70) ∧
    (BalanceService.debit_balance exLowDb exBigDebit).2 = exLowDb := by
  decide

/-- C3: the code violates the claim.  The conservation equation
presumes debits and credits can succeed and move the balance; in the
code every Debit and Credit call raises `AttributeError` in the broken
balance DAO and returns the store unchanged, so no sequence of ledger
calls ever changes anything — `runOps` is the identity — and the sums
of the claim are unreachable (no call is ever successful). -/
theorem ledger_calls_never_mutate :
    (∀ (db : DB) (r : DebitRequest),
      BalanceService.debit_balance db r = (.error .attributeError, db)) ∧
    (∀ (db : DB) (r : CreditRequest),
      BalanceService.credit_balance db r = (.error .attributeError, db)) ∧
    (∀ (db : DB) (ops : List LedgerOp), runOps db ops = db) := by
  refine ⟨debit_balance_attribute_error, credit_balance_attribute_error, ?_⟩
  intro db ops
  induction ops generalizing db with
  | nil => rfl
  | cons op rest ih =>
      have hop : applyOp db op = db := by
        cases op with
        | debit r =>
            show (BalanceService.debit_balance db r).2 = db
            rw [debit_balance_attribute_error]
        | credit r =>
            show (BalanceService.credit_balance db r).2 = db
            rw [credit_balance_attribute_error]
      show runOps (applyOp db op) rest = db
      rw [hop]
      exact ih db

/-- C4: the code violates the claim's premise.  No ApplyPlan call ever
succeeds: when the catalog lookup, the subscription insert and the
`CreditRequest` validation all pass, the grant step's `credit_balance`
raises `AttributeError` through the broken balance DAO, so every
ApplyPlan call returns an error and the claim's "successful ApplyPlan"
is unsatisfiable. -/
theorem apply_plan_never_succeeds (db : DB) (req : ApplyPlanRequest)
    (now : Nat) :
    ∃ e, (PlanService.apply_plan db req now).1 = .error e := by
  unfold PlanService.apply_plan
  rcases ht : PlanDAO.get_tariff_plan db req.plan_code with _ | t
  · exact ⟨.planNotFound req.plan_code, rfl⟩
  · dsimp only
    rcases hap : (PlanDAO.apply_plan db req.sub req.plan_code req.ref
        req.auto_renew now).1 with e | up
    · exact ⟨e, rfl⟩
    · rcases hmk : mkCreditRequest req.sub t.monthly_units req.ref
          (some "plan_activation") ("plan_" ++ req.plan_code) with e | cr
      · exact ⟨e, rfl⟩
      · dsimp only
        rw [credit_balance_attribute_error]
        exact ⟨.attributeError, rfl⟩

/-- C5: the code violates the claim: ApplyPlan commits the deactivation
of the identity's prior subscriptions in its own transaction before the
new-row insert, so when that insert fails (here: on the `uq_user_plan`
constraint) the failure leaves partial state: the prior active
subscription of u1 is already deactivated and no new active row exists. -/
theorem apply_plan_partial_state_on_failure :
    (PlanService.apply_plan exC5db exC5req 1000).1 = .error .uniqueViolation ∧
    activePlans exC5db "u1" ≠ [] ∧
    activePlans (PlanService.apply_plan exC5db exC5req 1000).2 "u1" = [] ∧
    (PlanService.apply_plan exC5db exC5req 1000).2.user_plans =
      (PlanDAO.deactivate_user_plans exC5db "u1").user_plans := by
  decide

/-- C6 counterexample: u2 holds an active base750 row expiring at 2000
with auto-renew off; at now = 1000 (expiry in the future)
GetSubscriptionDetails derives "cancelled", but GetPlanInfo reports
"active", not "cancelled" as the claim states. -/
theorem plan_info_cancelled_counterexample :
    PlanService.get_user_plan_info exC6db "u2" 1000 =
      .ok (some { plan_code := "base750", expires_at := 2000,
                  status := "active" }) ∧
    (PlanDAO.get_user_subscription_details exC6db "u2" 1000).map
      (fun d => d.status) = some "cancelled" ∧
    ("active" : String) ≠ "cancelled" := by
  decide

/-- C6 (amended): every subscription read back through
GetSubscriptionDetails carries the derived status "expired" when its
expiry is not after now, else "cancelled" when auto-renew is off, else
"active"; GetPlanInfo however renders every row it returns as "active"
(it never derives "cancelled"). -/
theorem subscription_status_derivation (db : DB) (sub : String) (now : Nat)
    (d : SubscriptionDetails)
    (h : PlanDAO.get_user_subscription_details db sub now = some d) :
    d.status = (if d.expires_at ≤ now then "expired"
                else if d.auto_renew = false then "cancelled" else "active") ∧
    ∀ i : PlanInfo, PlanService.get_user_plan_info db sub now = .ok (some i) →
      i.status = "active" := by
  constructor
  · unfold PlanDAO.get_user_subscription_details at h
    dsimp only at h
    rw [Option.map_eq_some'] at h
    obtain ⟨pt, hpt, hd⟩ := h
    rw [← hd]
    dsimp only
    unfold subscriptionStatus
    by_cases he : pt.1.expires_at ≤ now <;>
      cases har : pt.1.auto_renew <;> simp [he, har]
  · intro i hi
    unfold PlanService.get_user_plan_info at hi
    rcases hga : PlanDAO.get_active_plan_by_user db sub now with e | oup
    · rw [hga] at hi
      simp at hi
    · rw [hga] at hi
      rcases oup with _ | up
      · simp at hi
      · have hia : up.is_active = true := by
          unfold PlanDAO.get_active_plan_by_user at hga
          dsimp only at hga
          split at hga
          · have hh : (db.user_plans.filter fun p =>
                p.sub == sub && p.is_active && decide (now < p.expires_at)).head? =
                some up := by simpa using hga
            have hmem := mem_of_head?_eq_some hh
            have hpred := (List.mem_filter.mp hmem).2
            simp only [Bool.and_eq_true] at hpred
            exact hpred.1.2
          · simp at hga
        obtain rfl : ({ plan_code := up.plan_code
                        expires_at := up.expires_at
                        status := if up.is_active then "active"
                                  else "inactive" } : PlanInfo) = i := by
          simpa using hi
        simp [hia]

/-- C6 witness: the counterexample store instantiates the amended
derivation: the details row at now = 1000 derives "cancelled" while
GetPlanInfo yields status "active". -/
theorem subscription_status_derivation_witness :
    (exC6SubDetails.status =
      if exC6SubDetails.expires_at ≤ 1000 then "expired"
      else if exC6SubDetails.auto_renew = false then "cancelled"
      else "active") ∧
    ∀ i : PlanInfo,
      PlanService.get_user_plan_info exC6db "u2" 1000 = .ok (some i) →
      i.status = "active" :=
  subscription_status_derivation exC6db "u2" 1000 exC6SubDetails (by decide)

/-- C7: the code violates the claim.  InitUser never returns (true, 0)
nor (false, existingBalance): its first step calls the undefined
`balance_dao.get_by_sub`, and the `except Exception` wrapper turns the
`AttributeError` into an HTTP 500, on every call, for every identity,
with nothing provisioned. -/
theorem init_user_always_500 (db : DB) (sub : String) (now : Nat) :
    UserInitService.init_user db sub now = (.error .internalError, db) :=
  rfl

/-- C8: the code violates the claim.  CheckBalance never returns
(allowed, currentBalance) and never provisions a zero balance row: the
`get_or_create_balance` call raises `AttributeError` at the
`UserBalance.user_id` query (and its row creation would raise
`TypeError` on the `user_id=` keyword), so every call propagates the
exception with the store unchanged. -/
theorem check_balance_always_raises (db : DB) (req : CheckBalanceRequest) :
    BalanceService.check_balance db req = (.error .attributeError, db) :=
  rfl

/-- C9: the `uq_user_plan` constraint admits at most one subscription
row per (identity, plan code): inserts through the DAO preserve that
invariant, and a second ApplyPlan of an already-held plan code fails
with the unique violation at the new-row insert, raised only after the
identity's prior active subscriptions were already deactivated. -/
theorem plan_code_unique_per_user :
    (∀ (db : DB) (p : UserPlan), planUq db → planUq (PlanDAO.create db p).2) ∧
    (∀ (db : DB) (req : ApplyPlanRequest) (now : Nat) (q : UserPlan)
        (t : TariffPlan),
      q ∈ db.user_plans → q.sub = req.sub → q.plan_code = req.plan_code →
      PlanDAO.get_tariff_plan db req.plan_code = some t →
      PlanService.apply_plan db req now =
        (.error .uniqueViolation, PlanDAO.deactivate_user_plans db req.sub) ∧
      ∀ p ∈ (PlanService.apply_plan db req now).2.user_plans,
        p.sub = req.sub → p.is_active = false) := by
  constructor
  · exact planUq_create
  · intro db req now q t hq hqs hqc ht
    have hdup : (db.user_plans.any fun x =>
        x.sub == req.sub && x.plan_code == req.plan_code) = true :=
      List.any_eq_true.mpr ⟨q, hq, by simp [hqs, hqc]⟩
    have hsvc : PlanService.apply_plan db req now =
        (.error .uniqueViolation, PlanDAO.deactivate_user_plans db req.sub) := by
      unfold PlanService.apply_plan
      rw [ht]
      dsimp only
      rw [dao_apply_plan_dup db req.sub req.plan_code req.ref req.auto_renew
        now t ht hdup]
    refine ⟨hsvc, ?_⟩
    rw [hsvc]
    exact deactivate_sub_inactive db req.sub

/-- C9 witness: u1 already holds a base750 row; re-applying base750
under the fresh reference pay9 fails with the unique violation and every
u1 subscription row ends deactivated. -/
theorem plan_code_unique_per_user_witness :
    PlanService.apply_plan exC5db exC5req 1000 =
      (.error .uniqueViolation, PlanDAO.deactivate_user_plans exC5db "u1") ∧
    ∀ p ∈ (PlanService.apply_plan exC5db exC5req 1000).2.user_plans,
      p.sub = "u1" → p.is_active = false :=
  plan_code_unique_per_user.2 exC5db exC5req 1000
    { id := 0
      sub := "u1"
      plan_code := "base750"
      started_at := 0
      expires_at := 900
      auto_renew := false
      is_active := true }
    { plan_code := "base750"
      name := "Base 750"
      monthly_units := 750
      price_rub := 990
      is_active := true }
    (by decide) (by decide) (by decide) (by decide)

/-- C10: for every active catalog plan granting 0 monthly units (a value
the schema permits), every ApplyPlan of it fails: the grant step's
`CreditRequest` validation requires units strictly greater than 0, and
when the subscription insert itself succeeded, that validation failure
is raised only after the new subscription row was already activated. -/
theorem zero_grant_plan_activation_fails (db : DB) (req : ApplyPlanRequest)
    (now : Nat) (t : TariffPlan)
    (ht : PlanDAO.get_tariff_plan db req.plan_code = some t)
    (hz : t.monthly_units = 0) :
    (∃ e, (PlanService.apply_plan db req now).1 = .error e) ∧
    (∀ up : UserPlan,
      (PlanDAO.apply_plan db req.sub req.plan_code req.ref
        req.auto_renew now).1 = .ok up →
      (PlanService.apply_plan db req now).1 = .error .invalidArgument ∧
      up ∈ (PlanService.apply_plan db req now).2.user_plans ∧
      up.is_active = true ∧ up.started_at = now) := by
  have hmk : mkCreditRequest req.sub t.monthly_units req.ref
      (some "plan_activation") ("plan_" ++ req.plan_code) =
      .error .invalidArgument := by
    rw [hz]
    rfl
  rcases hdup : (db.user_plans.any fun x =>
      x.sub == req.sub && x.plan_code == req.plan_code) with _ | _
  · have hok := dao_apply_plan_ok db req.sub req.plan_code req.ref
      req.auto_renew now t ht hdup
    have hsvc : PlanService.apply_plan db req now =
        (.error .invalidArgument,
         { PlanDAO.deactivate_user_plans db req.sub with
             user_plans := (PlanDAO.deactivate_user_plans db req.sub).user_plans ++
               [{ id := db.nextId
                  sub := req.sub
                  plan_code := req.plan_code
                  started_at := now
                  expires_at := now + thirtyDays
                  auto_renew := req.auto_renew
                  is_active := true }]
             nextId := db.nextId + 1 }) := by
      unfold PlanService.apply_plan
      rw [ht]
      dsimp only
      rw [hok]
      dsimp only
      rw [hmk]
    refine ⟨⟨.invalidArgument, by rw [hsvc]⟩, ?_⟩
    intro up hup
    rw [hok] at hup
    obtain rfl : ({ id := db.nextId
                    sub := req.sub
                    plan_code := req.plan_code
                    started_at := now
                    expires_at := now + thirtyDays
                    auto_renew := req.auto_renew
                    is_active := true } : UserPlan) = up := by
      simpa using hup
    rw [hsvc]
    refine ⟨rfl, ?_, rfl, rfl⟩
    show _ ∈ (PlanDAO.deactivate_user_plans db req.sub).user_plans ++
      [{ id := db.nextId
         sub := req.sub
         plan_code := req.plan_code
         started_at := now
         expires_at := now + thirtyDays
         auto_renew := req.auto_renew
         is_active := true }]
    simp
  · have hdao := dao_apply_plan_dup db req.sub req.plan_code req.ref
      req.auto_renew now t ht hdup
    have hsvc : PlanService.apply_plan db req now =
        (.error .uniqueViolation, PlanDAO.deactivate_user_plans db req.sub) := by
      unfold PlanService.apply_plan
      rw [ht]
      dsimp only
      rw [hdao]
    refine ⟨⟨.uniqueViolation, by rw [hsvc]⟩, ?_⟩
    intro up hup
    rw [hdao] at hup
    simp at hup

/-- C10 witness: the active catalog plan free0 grants 0 units; applying
it to u4 fails with the validation error, yet its new subscription row
was already inserted and active. -/
theorem zero_grant_plan_activation_fails_witness :
    (∃ e, (PlanService.apply_plan exC10db exC10req 1000).1 = .error e) ∧
    (∀ up : UserPlan,
      (PlanDAO.apply_plan exC10db "u4" "free0" (some "pay3") true 1000).1 =
        .ok up →
      (PlanService.apply_plan exC10db exC10req 1000).1 =
        .error .invalidArgument ∧
      up ∈ (PlanService.apply_plan exC10db exC10req 1000).2.user_plans ∧
      up.is_active = true ∧ up.started_at = 1000) :=
  zero_grant_plan_activation_fails exC10db exC10req 1000
    { plan_code := "free0"
      name := "Free"
      monthly_units := 0
      price_rub := 0
      is_active := true }
    (by decide) (by decide)
